import Mathlib

/-!
# Field-specification tables of `blacklistfilter`

A shallow embedding of `src/blacklistfilter/fields.c` and
`src/blacklistfilter/fields.h`: the three parallel static tables (names,
sizes, types, indexed by field ID), the `F_X` / `F_X_T` macros, and the two
global descriptors `UR_FIELD_SPECS_STATIC` and `ur_field_specs`.

C arrays are Lean lists read with `xs[i]?` (an out-of-bounds index is
`none`); `short` sizes are `Int`; IDs and counts are `Nat`.
-/

namespace Fields

/-! ## Types declared in `<unirec/unirec.h>` (not part of the sources) -/

/-- Modelled from the spec: the enumeration `ur_field_type_t` of
`<unirec/unirec.h>` is missing; section 3 (FieldTypeTag) lists its storage
kinds: unsigned integers of 8/16/32/64 bits, a 128-bit IP address, a 64-bit
timestamp, a variable-length byte sequence and a variable-length string.
The constructor names are the tags used in `fields.c`. -/
inductive ur_field_type_t where
  | UR_TYPE_STRING
  | UR_TYPE_BYTES
  | UR_TYPE_UINT8
  | UR_TYPE_UINT16
  | UR_TYPE_UINT32
  | UR_TYPE_UINT64
  | UR_TYPE_IP
  | UR_TYPE_TIME
  deriving DecidableEq, Repr

/-- Modelled from the spec: the lifecycle enumeration of
`<unirec/unirec.h>` is missing; section 3 (FieldRegistry) gives the states
`UNINITIALIZED`, `INITIALIZING`, `READY`. `UR_UNINITIALIZED` is the name used
in `fields.c`. -/
inductive ur_initialized_t where
  | UR_UNINITIALIZED
  | UR_INITIALIZING
  | UR_READY
  deriving DecidableEq, Repr

/-- The C value types named by the `F_X_T` macros of `fields.h`. -/
inductive CType where
  | ip_addr_t
  | uint64_t
  | ur_time_t
  | uint32_t
  | uint16_t
  | uint8_t
  | char
  deriving DecidableEq, Repr

open ur_field_type_t ur_initialized_t

/-! ## `fields.c`: the static tables -/

/-- The table `char *ur_field_names_static[]` (fields.c, lines 5-33). -/
def ur_field_names_static : List String :=
  [ "DST_IP",
    "SRC_IP",
    "BLACKLIST",
    "BYTES",
    "DST_BLACKLIST",
    "LINK_BIT_FIELD",
    "SRC_BLACKLIST",
    "TIME_FIRST",
    "TIME_LAST",
    "PACKETS",
    "DNS_QTYPE",
    "DNS_RLENGTH",
    "DST_PORT",
    "SRC_PORT",
    "BLACKLIST_TYPE",
    "DIR_BIT_FIELD",
    "DNS_BLACKLIST",
    "DNS_DO",
    "PROTOCOL",
    "TCP_FLAGS",
    "TOS",
    "TTL",
    "DNS_NAME",
    "DNS_RDATA",
    "HTTP_REQUEST_HOST",
    "HTTP_REQUEST_REFERER",
    "HTTP_REQUEST_URL" ]

/-- The table `short ur_field_sizes_static[]` (fields.c, lines 34-62). -/
def ur_field_sizes_static : List Int :=
  [ 16,  -- DST_IP
    16,  -- SRC_IP
    8,   -- BLACKLIST
    8,   -- BYTES
    8,   -- DST_BLACKLIST
    8,   -- LINK_BIT_FIELD
    8,   -- SRC_BLACKLIST
    8,   -- TIME_FIRST
    8,   -- TIME_LAST
    4,   -- PACKETS
    2,   -- DNS_QTYPE
    2,   -- DNS_RLENGTH
    2,   -- DST_PORT
    2,   -- SRC_PORT
    1,   -- BLACKLIST_TYPE
    1,   -- DIR_BIT_FIELD
    1,   -- DNS_BLACKLIST
    1,   -- DNS_DO
    1,   -- PROTOCOL
    1,   -- TCP_FLAGS
    1,   -- TOS
    1,   -- TTL
    -1,  -- DNS_NAME
    -1,  -- DNS_RDATA
    -1,  -- HTTP_REQUEST_HOST
    -1,  -- HTTP_REQUEST_REFERER
    -1 ]  -- HTTP_REQUEST_URL

/-- The table `ur_field_type_t ur_field_types_static[]` (fields.c, lines
63-91). -/
def ur_field_types_static : List ur_field_type_t :=
  [ UR_TYPE_IP,       -- DST_IP
    UR_TYPE_IP,       -- SRC_IP
    UR_TYPE_UINT64,   -- BLACKLIST
    UR_TYPE_UINT64,   -- BYTES
    UR_TYPE_UINT64,   -- DST_BLACKLIST
    UR_TYPE_UINT64,   -- LINK_BIT_FIELD
    UR_TYPE_UINT64,   -- SRC_BLACKLIST
    UR_TYPE_TIME,     -- TIME_FIRST
    UR_TYPE_TIME,     -- TIME_LAST
    UR_TYPE_UINT32,   -- PACKETS
    UR_TYPE_UINT16,   -- DNS_QTYPE
    UR_TYPE_UINT16,   -- DNS_RLENGTH
    UR_TYPE_UINT16,   -- DST_PORT
    UR_TYPE_UINT16,   -- SRC_PORT
    UR_TYPE_UINT8,    -- BLACKLIST_TYPE
    UR_TYPE_UINT8,    -- DIR_BIT_FIELD
    UR_TYPE_UINT8,    -- DNS_BLACKLIST
    UR_TYPE_UINT8,    -- DNS_DO
    UR_TYPE_UINT8,    -- PROTOCOL
    UR_TYPE_UINT8,    -- TCP_FLAGS
    UR_TYPE_UINT8,    -- TOS
    UR_TYPE_UINT8,    -- TTL
    UR_TYPE_STRING,   -- DNS_NAME
    UR_TYPE_BYTES,    -- DNS_RDATA
    UR_TYPE_STRING,   -- HTTP_REQUEST_HOST
    UR_TYPE_STRING,   -- HTTP_REQUEST_REFERER
    UR_TYPE_STRING ]  -- HTTP_REQUEST_URL


/-! ## `fields.c`: the two global descriptors -/

/-- Modelled from the spec: the struct type `ur_static_field_specs_t` of
`<unirec/unirec.h>` is missing; section 3 (StaticFieldSpecs) gives its shape:
parallel sequences of names, sizes and types (index-aligned) plus a count.
The field order is the order of the initialiser in `fields.c`, line 92. -/
structure ur_static_field_specs_t where
  names : List String
  sizes : List Int
  types : List ur_field_type_t
  count : Nat
  deriving DecidableEq, Repr

/-- Modelled from the spec: the record FieldEntry of section 3 (the sources
have no such type, only the three parallel tables): an ID with the name, size
and type stored at that index. -/
structure FieldEntry where
  id : Nat
  name : String
  size : Int
  type : ur_field_type_t
  deriving DecidableEq, Repr

/-- Modelled from the spec: the struct type `ur_field_specs_t` of
`<unirec/unirec.h>` is missing; section 3 (FieldRegistry) gives its shape: the
three tables of the static snapshot plus the count of statically-known
fields, the count of currently valid fields, the capacity of the backing
storage, the pointer to dynamically registered entries (`none` is `NULL`) and
the lifecycle state. The field order is the order of the initialiser in
`fields.c`, line 93. -/
structure ur_field_specs_t where
  names : List String
  sizes : List Int
  types : List ur_field_type_t
  staticCount : Nat
  validCount : Nat
  capacity : Nat
  dynamic : Option (List FieldEntry)
  state : ur_initialized_t
  deriving DecidableEq, Repr

/-- The global `UR_FIELD_SPECS_STATIC` (fields.c, line 92). -/
def UR_FIELD_SPECS_STATIC : ur_static_field_specs_t :=
  ⟨ur_field_names_static, ur_field_sizes_static, ur_field_types_static, 27⟩

/-- The global `ur_field_specs` (fields.c, line 93). -/
def ur_field_specs : ur_field_specs_t :=
  ⟨ur_field_names_static, ur_field_sizes_static, ur_field_types_static, 27, 27, 27, none,
    UR_UNINITIALIZED⟩

/-! ## `fields.h`: the field ID macros `F_X` and value type macros `F_X_T` -/

def F_DST_IP : Nat := 0
def F_DST_IP_T : CType := CType.ip_addr_t
def F_SRC_IP : Nat := 1
def F_SRC_IP_T : CType := CType.ip_addr_t
def F_BLACKLIST : Nat := 2
def F_BLACKLIST_T : CType := CType.uint64_t
def F_BYTES : Nat := 3
def F_BYTES_T : CType := CType.uint64_t
def F_DST_BLACKLIST : Nat := 4
def F_DST_BLACKLIST_T : CType := CType.uint64_t
def F_LINK_BIT_FIELD : Nat := 5
def F_LINK_BIT_FIELD_T : CType := CType.uint64_t
def F_SRC_BLACKLIST : Nat := 6
def F_SRC_BLACKLIST_T : CType := CType.uint64_t
def F_TIME_FIRST : Nat := 7
def F_TIME_FIRST_T : CType := CType.ur_time_t
def F_TIME_LAST : Nat := 8
def F_TIME_LAST_T : CType := CType.ur_time_t
def F_PACKETS : Nat := 9
def F_PACKETS_T : CType := CType.uint32_t
def F_DNS_QTYPE : Nat := 10
def F_DNS_QTYPE_T : CType := CType.uint16_t
def F_DNS_RLENGTH : Nat := 11
def F_DNS_RLENGTH_T : CType := CType.uint16_t
def F_DST_PORT : Nat := 12
def F_DST_PORT_T : CType := CType.uint16_t
def F_SRC_PORT : Nat := 13
def F_SRC_PORT_T : CType := CType.uint16_t
def F_BLACKLIST_TYPE : Nat := 14
def F_BLACKLIST_TYPE_T : CType := CType.uint8_t
def F_DIR_BIT_FIELD : Nat := 15
def F_DIR_BIT_FIELD_T : CType := CType.uint8_t
def F_DNS_BLACKLIST : Nat := 16
def F_DNS_BLACKLIST_T : CType := CType.uint8_t
def F_DNS_DO : Nat := 17
def F_DNS_DO_T : CType := CType.uint8_t
def F_PROTOCOL : Nat := 18
def F_PROTOCOL_T : CType := CType.uint8_t
def F_TCP_FLAGS : Nat := 19
def F_TCP_FLAGS_T : CType := CType.uint8_t
def F_TOS : Nat := 20
def F_TOS_T : CType := CType.uint8_t
def F_TTL : Nat := 21
def F_TTL_T : CType := CType.uint8_t
def F_DNS_NAME : Nat := 22
def F_DNS_NAME_T : CType := CType.char
def F_DNS_RDATA : Nat := 23
def F_DNS_RDATA_T : CType := CType.char
def F_HTTP_REQUEST_HOST : Nat := 24
def F_HTTP_REQUEST_HOST_T : CType := CType.char
def F_HTTP_REQUEST_REFERER : Nat := 25
def F_HTTP_REQUEST_REFERER_T : CType := CType.char
def F_HTTP_REQUEST_URL : Nat := 26
def F_HTTP_REQUEST_URL_T : CType := CType.char

/-- The macro definitions of `fields.h` (lines 7-60) in declaration order:
for each field `X` the triple (`"X"`, `F_X`, `F_X_T`). -/
def field_macros : List (String × Nat × CType) :=
  [ ("DST_IP", F_DST_IP, F_DST_IP_T),
    ("SRC_IP", F_SRC_IP, F_SRC_IP_T),
    ("BLACKLIST", F_BLACKLIST, F_BLACKLIST_T),
    ("BYTES", F_BYTES, F_BYTES_T),
    ("DST_BLACKLIST", F_DST_BLACKLIST, F_DST_BLACKLIST_T),
    ("LINK_BIT_FIELD", F_LINK_BIT_FIELD, F_LINK_BIT_FIELD_T),
    ("SRC_BLACKLIST", F_SRC_BLACKLIST, F_SRC_BLACKLIST_T),
    ("TIME_FIRST", F_TIME_FIRST, F_TIME_FIRST_T),
    ("TIME_LAST", F_TIME_LAST, F_TIME_LAST_T),
    ("PACKETS", F_PACKETS, F_PACKETS_T),
    ("DNS_QTYPE", F_DNS_QTYPE, F_DNS_QTYPE_T),
    ("DNS_RLENGTH", F_DNS_RLENGTH, F_DNS_RLENGTH_T),
    ("DST_PORT", F_DST_PORT, F_DST_PORT_T),
    ("SRC_PORT", F_SRC_PORT, F_SRC_PORT_T),
    ("BLACKLIST_TYPE", F_BLACKLIST_TYPE, F_BLACKLIST_TYPE_T),
    ("DIR_BIT_FIELD", F_DIR_BIT_FIELD, F_DIR_BIT_FIELD_T),
    ("DNS_BLACKLIST", F_DNS_BLACKLIST, F_DNS_BLACKLIST_T),
    ("DNS_DO", F_DNS_DO, F_DNS_DO_T),
    ("PROTOCOL", F_PROTOCOL, F_PROTOCOL_T),
    ("TCP_FLAGS", F_TCP_FLAGS, F_TCP_FLAGS_T),
    ("TOS", F_TOS, F_TOS_T),
    ("TTL", F_TTL, F_TTL_T),
    ("DNS_NAME", F_DNS_NAME, F_DNS_NAME_T),
    ("DNS_RDATA", F_DNS_RDATA, F_DNS_RDATA_T),
    ("HTTP_REQUEST_HOST", F_HTTP_REQUEST_HOST, F_HTTP_REQUEST_HOST_T),
    ("HTTP_REQUEST_REFERER", F_HTTP_REQUEST_REFERER, F_HTTP_REQUEST_REFERER_T),
    ("HTTP_REQUEST_URL", F_HTTP_REQUEST_URL, F_HTTP_REQUEST_URL_T) ]

/-! ## The registry operations

The functions that operate on `ur_field_specs` live in the UniRec library
and are not part of the sources; they are modelled from sections 4.3, 4.4
and 7 of the specification. -/

/-- Modelled from the spec: the error kinds of section 7 (the functions
raising them are missing). The diagnostic payload of a schema conflict (the
offending name and the two definitions) is not represented. -/
inductive RegistryError where
  | SchemaConflict
  | NotFound
  | NotInitialized
  | CapacityExhausted
  deriving DecidableEq, Repr

open RegistryError

deriving instance DecidableEq for Except

/-- Modelled from the spec: whether a tag is variable-length (section 3:
string and bytes tags use the size -1, all other tags a fixed width); the
type-system helper of section 4.1 is missing. -/
def isVariableLength : ur_field_type_t → Bool
  | UR_TYPE_STRING => true
  | UR_TYPE_BYTES => true
  | _ => false

/-- Modelled from the spec: the registration-time validation of section 4.3
(edge cases), missing from the sources: a size of -1 with a fixed-width tag,
or a variable-length tag with a size other than -1, is rejected. -/
def sizeMatchesTag (size : Int) (type : ur_field_type_t) : Bool :=
  decide (size = -1) == isVariableLength type

/-- Modelled from the spec: `fieldCount()` of section 4.3, missing from the
sources: the current number of valid entries (static and dynamic). -/
def fieldCount (r : ur_field_specs_t) : Nat :=
  r.validCount

/-- Modelled from the spec: the name search behind `resolveByName` and
`registerField` (section 4.3), missing from the sources: the first valid
index whose name equals `name` by case-sensitive exact match. -/
def findIndexByName (r : ur_field_specs_t) (name : String) : Option Nat :=
  (List.range r.validCount).find? (fun i => r.names[i]? == some name)

/-- Modelled from the spec: by-index access to a registry (section 4.3,
`resolveById`: the id must be below the count of valid fields); the accessor
is missing from the sources. -/
def entryAt (r : ur_field_specs_t) (id : Nat) : Option FieldEntry :=
  if id < r.validCount then
    match r.names[id]?, r.sizes[id]?, r.types[id]? with
    | some n, some s, some t => some ⟨id, n, s, t⟩
    | _, _, _ => none
  else none

/-- Modelled from the spec: the read guard of section 3 (FieldRegistry),
missing from the sources: entries may only be read when the lifecycle state
is `READY`. -/
def isReadable (r : ur_field_specs_t) : Bool :=
  decide (r.state = UR_READY)

/-- Modelled from the spec: `resolveById` of sections 4.3 and 4.4, missing
from the sources: `NotInitialized` unless the registry is `READY`,
`NotFound` for an id that is not below the count of valid fields. -/
def resolveById (r : ur_field_specs_t) (id : Nat) : Except RegistryError FieldEntry :=
  if isReadable r then
    match entryAt r id with
    | some e => .ok e
    | none => .error NotFound
  else .error NotInitialized

/-- Modelled from the spec: `resolveByName` of sections 4.3 and 4.4, missing
from the sources: `NotInitialized` unless the registry is `READY`,
`NotFound` for an unknown name. -/
def resolveByName (r : ur_field_specs_t) (name : String) : Except RegistryError FieldEntry :=
  if isReadable r then
    match findIndexByName r name with
    | some id =>
      match entryAt r id with
      | some e => .ok e
      | none => .error NotFound
    | none => .error NotFound
  else .error NotInitialized

/-- Modelled from the spec: `initialize()` of section 4.3 (named
`initRegistry` here), missing from the sources: from `UNINITIALIZED` the static table is copied in and the state
becomes `READY`; when already `READY` the call is a no-op. A registry that
another caller is initializing is left to that caller (section 3: only the
owning initialization path moves it to `READY`). -/
def initRegistry (r : ur_field_specs_t) : ur_field_specs_t :=
  match r.state with
  | UR_UNINITIALIZED =>
    { names := UR_FIELD_SPECS_STATIC.names
      sizes := UR_FIELD_SPECS_STATIC.sizes
      types := UR_FIELD_SPECS_STATIC.types
      staticCount := UR_FIELD_SPECS_STATIC.count
      validCount := UR_FIELD_SPECS_STATIC.count
      capacity := UR_FIELD_SPECS_STATIC.count
      dynamic := none
      state := UR_READY }
  | UR_INITIALIZING => r
  | UR_READY => r

/-- The number of values of the ID counter `uint16_t ur_last_id` declared in
`fields.h`, line 62. -/
def ID_LIMIT : Nat := 2 ^ 16

/-- Modelled from the spec: `registerField(name, size, type)` of section
4.3, missing from the sources. The result is the returned ID or the error,
paired with the registry after the call.

* A size that contradicts the tag (see `sizeMatchesTag`) is a validation
  error, reported as `SchemaConflict` (section 4.3 calls it
  SchemaConflict-equivalent); the registry is unchanged.
* A name that already exists returns its ID when the stored size and type
  equal the arguments, and fails with `SchemaConflict` otherwise; the
  registry is unchanged.
* A new name is appended with the ID that follows the highest valid one,
  which is the count of valid fields. If the count after the registration no
  longer fits the 16-bit ID counter the call fails with `CapacityExhausted`
  (section 7). When the backing storage is full its capacity becomes
  `grow capacity`: the spec asks for amortized growth and leaves the policy
  open, so the policy is the parameter `grow`. -/
def registerField (grow : Nat → Nat) (r : ur_field_specs_t)
    (name : String) (size : Int) (type : ur_field_type_t) :
    Except RegistryError Nat × ur_field_specs_t :=
  if sizeMatchesTag size type then
    match findIndexByName r name with
    | some id =>
      if r.sizes[id]? = some size ∧ r.types[id]? = some type then (.ok id, r)
      else (.error SchemaConflict, r)
    | none =>
      if r.validCount + 1 < ID_LIMIT then
        (.ok r.validCount,
          { r with
            names := r.names ++ [name]
            sizes := r.sizes ++ [size]
            types := r.types ++ [type]
            validCount := r.validCount + 1
            capacity := if r.validCount < r.capacity then r.capacity else grow r.capacity
            dynamic := some (r.dynamic.getD [] ++ [⟨r.validCount, name, size, type⟩]) })
      else (.error CapacityExhausted, r)
  else (.error SchemaConflict, r)

/-- The three tables of a registry hold exactly its valid entries: each has
as many elements as the count of valid fields. -/
def WellFormed (r : ur_field_specs_t) : Prop :=
  r.names.length = r.validCount ∧ r.sizes.length = r.validCount ∧
    r.types.length = r.validCount

instance (r : ur_field_specs_t) : Decidable (WellFormed r) := by
  unfold WellFormed; infer_instance

/-- The registry states a program can reach: the initial global, and
whatever initialization and registrations make of a reachable state. -/
inductive Reachable (grow : Nat → Nat) : ur_field_specs_t → Prop where
  | start : Reachable grow ur_field_specs
  | init (r : ur_field_specs_t) : Reachable grow r → Reachable grow (initRegistry r)
  | register (r : ur_field_specs_t) (name : String) (size : Int) (type : ur_field_type_t) :
      Reachable grow r → Reachable grow (registerField grow r name size type).2

/-! ## Byte-wise comparison of names -/

/-- Strict byte-wise lexicographic order on byte sequences (the order of
`strcmp`): the first differing byte decides, a proper prefix is smaller. -/
def bytesLt : List UInt8 → List UInt8 → Bool
  | [], [] => false
  | [], _ :: _ => true
  | _ :: _, [] => false
  | a :: as, b :: bs => if a < b then true else if b < a then false else bytesLt as bs

/-- Strict byte-wise lexicographic order on two names, each taken as the
sequence of its UTF-8 bytes (the bytes of the C string literal). -/
def nameLt (a b : String) : Bool :=
  bytesLt (a.toList.flatMap String.utf8EncodeChar) (b.toList.flatMap String.utf8EncodeChar)

end Fields

namespace Fields
open ur_field_type_t ur_initialized_t RegistryError

/-! ## The static tables -/

/-- C1: at every index `i < 27` both the size and the type table have an
entry, and the size agrees with the type tag: `UR_TYPE_UINT8` has size 1,
`UR_TYPE_UINT16` 2, `UR_TYPE_UINT32` 4, `UR_TYPE_UINT64` 8, `UR_TYPE_TIME` 8,
`UR_TYPE_IP` 16, `UR_TYPE_STRING` and `UR_TYPE_BYTES` -1; conversely a size
of -1 occurs only with `UR_TYPE_STRING` or `UR_TYPE_BYTES`. -/
theorem static_size_agrees_with_type (i : Nat) (hi : i < 27) :
    ∃ s t, ur_field_sizes_static[i]? = some s ∧ ur_field_types_static[i]? = some t ∧
      (t = UR_TYPE_UINT8 → s = 1) ∧
      (t = UR_TYPE_UINT16 → s = 2) ∧
      (t = UR_TYPE_UINT32 → s = 4) ∧
      (t = UR_TYPE_UINT64 → s = 8) ∧
      (t = UR_TYPE_TIME → s = 8) ∧
      (t = UR_TYPE_IP → s = 16) ∧
      (t = UR_TYPE_STRING → s = -1) ∧
      (t = UR_TYPE_BYTES → s = -1) ∧
      (s = -1 → t = UR_TYPE_STRING ∨ t = UR_TYPE_BYTES) := by
  interval_cases i <;> exact ⟨_, _, rfl, rfl, by decide⟩

/-- Witness of C1 at index 23 (`DNS_RDATA`, the one `UR_TYPE_BYTES` field). -/
theorem static_size_agrees_with_type_witness :
    23 < 27 ∧ ∃ s t, ur_field_sizes_static[23]? = some s ∧
      ur_field_types_static[23]? = some t ∧
      (t = UR_TYPE_UINT8 → s = 1) ∧
      (t = UR_TYPE_UINT16 → s = 2) ∧
      (t = UR_TYPE_UINT32 → s = 4) ∧
      (t = UR_TYPE_UINT64 → s = 8) ∧
      (t = UR_TYPE_TIME → s = 8) ∧
      (t = UR_TYPE_IP → s = 16) ∧
      (t = UR_TYPE_STRING → s = -1) ∧
      (t = UR_TYPE_BYTES → s = -1) ∧
      (s = -1 → t = UR_TYPE_STRING ∨ t = UR_TYPE_BYTES) :=
  ⟨by decide, static_size_agrees_with_type 23 (by decide)⟩

/-- C2: the `F_X` values are 0, 1, ..., 26 in declaration order (so they
are exactly the numbers below 27, none used twice), the name table holds
`"X"` at index `F_X` for every macro, and `F_X` is the only index at which
the name table holds `"X"`: an exact-match lookup of a static name can only
yield the declared index. -/
theorem static_ids_agree_with_names :
    field_macros.map (fun m => m.2.1) = List.range 27 ∧
    (field_macros.map (fun m => m.2.1)).Nodup ∧
    (∀ k, k ∈ field_macros.map (fun m => m.2.1) ↔ k < 27) ∧
    field_macros.map (fun m => m.1) = ur_field_names_static ∧
    (∀ m ∈ field_macros, ur_field_names_static[m.2.1]? = some m.1) ∧
    (∀ m ∈ field_macros, ∀ j, ur_field_names_static[j]? = some m.1 → j = m.2.1) := by
  have hids : field_macros.map (fun m => m.2.1) = List.range 27 := by decide
  refine ⟨hids, ?_, ?_, by decide, by decide, ?_⟩
  · rw [hids]; exact List.nodup_range 27
  · intro k; rw [hids]; exact List.mem_range
  · intro m hm j hj
    have hlen : j < ur_field_names_static.length := by
      rcases List.getElem?_eq_some_iff.mp hj with ⟨h, _⟩
      exact h
    have hj27 : j < 27 := hlen
    have key : ∀ m ∈ field_macros, ∀ j, j < 27 →
        ur_field_names_static[j]? = some m.1 → j = m.2.1 := by decide
    exact key m hm j hj27 hj

/-- C3: the 27 static names are pairwise distinct under exact comparison,
and therefore every index `j` at which the name table holds the name of entry
`i` (what an exact-match lookup of that name can return) is `i` itself and
carries the same (name, size, type) triple as entry `i`. -/
theorem static_names_distinct :
    (∀ i j, i < 27 → j < 27 →
      ur_field_names_static[i]? = ur_field_names_static[j]? → i = j) ∧
    (∀ i, i < 27 → ∃ n s t,
      ur_field_names_static[i]? = some n ∧
      ur_field_sizes_static[i]? = some s ∧
      ur_field_types_static[i]? = some t ∧
      ∀ j, ur_field_names_static[j]? = some n →
        j = i ∧
        (ur_field_names_static[j]?, ur_field_sizes_static[j]?, ur_field_types_static[j]?)
          = (some n, some s, some t)) := by
  have hdist : ∀ i, i < 27 → ∀ j, j < 27 →
      ur_field_names_static[i]? = ur_field_names_static[j]? → i = j := by decide
  refine ⟨fun i j hi hj h => hdist i hi j hj h, ?_⟩
  intro i hi
  have hdef : ∃ n s t, ur_field_names_static[i]? = some n ∧
      ur_field_sizes_static[i]? = some s ∧ ur_field_types_static[i]? = some t := by
    interval_cases i <;> exact ⟨_, _, _, rfl, rfl, rfl⟩
  obtain ⟨n, s, t, hn, hs, ht⟩ := hdef
  refine ⟨n, s, t, hn, hs, ht, ?_⟩
  intro j hj
  have hj27 : j < 27 := (List.getElem?_eq_some_iff.mp hj).1
  have hji : j = i := hdist j hj27 i hi (hj.trans hn.symm)
  subst hji
  exact ⟨rfl, by rw [hn, hs, ht]⟩

/-- A list index is in bounds exactly when it is below the length. -/
theorem index_in_bounds_iff {α : Type} (xs : List α) (i : Nat) :
    (xs[i]?).isSome ↔ i < xs.length := by
  rw [Option.isSome_iff_exists]
  constructor
  · rintro ⟨a, ha⟩
    exact (List.getElem?_eq_some_iff.mp ha).1
  · intro h
    exact ⟨xs[i], List.getElem?_eq_getElem h⟩

/-- C4: the name, size and type tables of `UR_FIELD_SPECS_STATIC` each have
exactly 27 entries, which is the stored count, so for each of the three
tables an index is in bounds exactly when it is below the count. -/
theorem static_specs_index_aligned :
    UR_FIELD_SPECS_STATIC.count = 27 ∧
    UR_FIELD_SPECS_STATIC.names.length = UR_FIELD_SPECS_STATIC.count ∧
    UR_FIELD_SPECS_STATIC.sizes.length = UR_FIELD_SPECS_STATIC.count ∧
    UR_FIELD_SPECS_STATIC.types.length = UR_FIELD_SPECS_STATIC.count ∧
    (∀ id, id < UR_FIELD_SPECS_STATIC.count ↔ (UR_FIELD_SPECS_STATIC.names[id]?).isSome) ∧
    (∀ id, id < UR_FIELD_SPECS_STATIC.count ↔ (UR_FIELD_SPECS_STATIC.sizes[id]?).isSome) ∧
    (∀ id, id < UR_FIELD_SPECS_STATIC.count ↔ (UR_FIELD_SPECS_STATIC.types[id]?).isSome) := by
  have hn : UR_FIELD_SPECS_STATIC.names.length = UR_FIELD_SPECS_STATIC.count := by decide
  have hs : UR_FIELD_SPECS_STATIC.sizes.length = UR_FIELD_SPECS_STATIC.count := by decide
  have ht : UR_FIELD_SPECS_STATIC.types.length = UR_FIELD_SPECS_STATIC.count := by decide
  refine ⟨rfl, hn, hs, ht, ?_, ?_, ?_⟩
  · intro id; rw [← hn]; exact (index_in_bounds_iff _ id).symm
  · intro id; rw [← hs]; exact (index_in_bounds_iff _ id).symm
  · intro id; rw [← ht]; exact (index_in_bounds_iff _ id).symm

/-- C5: `ur_field_specs` starts as the static snapshot with no dynamic
fields: its three tables are those of `UR_FIELD_SPECS_STATIC`, its count of
statically-known fields, its count of valid fields and its capacity all equal
the static count 27, and its pointer to dynamic entries is absent. -/
theorem registry_starts_as_static_snapshot :
    ur_field_specs.names = UR_FIELD_SPECS_STATIC.names ∧
    ur_field_specs.sizes = UR_FIELD_SPECS_STATIC.sizes ∧
    ur_field_specs.types = UR_FIELD_SPECS_STATIC.types ∧
    UR_FIELD_SPECS_STATIC.count = 27 ∧
    ur_field_specs.staticCount = UR_FIELD_SPECS_STATIC.count ∧
    ur_field_specs.validCount = UR_FIELD_SPECS_STATIC.count ∧
    ur_field_specs.capacity = UR_FIELD_SPECS_STATIC.count ∧
    ur_field_specs.dynamic = none :=
  ⟨rfl, rfl, rfl, rfl, rfl, rfl, rfl, rfl⟩

/-- C9: for every field `X` of `fields.h`, the value type `F_X_T` agrees
with the tag and size at index `F_X` of the static tables: `ip_addr_t`
exactly for `UR_TYPE_IP` (size 16), `uint64_t` exactly for `UR_TYPE_UINT64`
(size 8), `ur_time_t` exactly for `UR_TYPE_TIME` (size 8), `uint32_t` exactly
for `UR_TYPE_UINT32` (size 4), `uint16_t` exactly for `UR_TYPE_UINT16`
(size 2), `uint8_t` exactly for `UR_TYPE_UINT8` (size 1), and `char` exactly
for `UR_TYPE_STRING` or `UR_TYPE_BYTES` (size -1). -/
theorem value_type_agrees_with_tag (m : String × Nat × CType) (hm : m ∈ field_macros) :
    ∃ s t, ur_field_sizes_static[m.2.1]? = some s ∧ ur_field_types_static[m.2.1]? = some t ∧
      (m.2.2 = CType.ip_addr_t ↔ t = UR_TYPE_IP) ∧ (t = UR_TYPE_IP → s = 16) ∧
      (m.2.2 = CType.uint64_t ↔ t = UR_TYPE_UINT64) ∧ (t = UR_TYPE_UINT64 → s = 8) ∧
      (m.2.2 = CType.ur_time_t ↔ t = UR_TYPE_TIME) ∧ (t = UR_TYPE_TIME → s = 8) ∧
      (m.2.2 = CType.uint32_t ↔ t = UR_TYPE_UINT32) ∧ (t = UR_TYPE_UINT32 → s = 4) ∧
      (m.2.2 = CType.uint16_t ↔ t = UR_TYPE_UINT16) ∧ (t = UR_TYPE_UINT16 → s = 2) ∧
      (m.2.2 = CType.uint8_t ↔ t = UR_TYPE_UINT8) ∧ (t = UR_TYPE_UINT8 → s = 1) ∧
      (m.2.2 = CType.char ↔ (t = UR_TYPE_STRING ∨ t = UR_TYPE_BYTES)) ∧
      (t = UR_TYPE_STRING ∨ t = UR_TYPE_BYTES → s = -1) := by
  simp only [field_macros, List.mem_cons, List.mem_singleton, List.not_mem_nil, or_false] at hm
  rcases hm with h | h | h | h | h | h | h | h | h | h | h | h | h | h | h | h | h | h | h |
    h | h | h | h | h | h | h | h <;> subst h <;> exact ⟨_, _, rfl, rfl, by decide⟩

/-- Witness of C9 at the macro pair of `DNS_RDATA` (`char`, `UR_TYPE_BYTES`). -/
theorem value_type_agrees_with_tag_witness :
    ("DNS_RDATA", F_DNS_RDATA, F_DNS_RDATA_T) ∈ field_macros ∧
    ∃ s t, ur_field_sizes_static[F_DNS_RDATA]? = some s ∧
      ur_field_types_static[F_DNS_RDATA]? = some t ∧
      (F_DNS_RDATA_T = CType.ip_addr_t ↔ t = UR_TYPE_IP) ∧ (t = UR_TYPE_IP → s = 16) ∧
      (F_DNS_RDATA_T = CType.uint64_t ↔ t = UR_TYPE_UINT64) ∧ (t = UR_TYPE_UINT64 → s = 8) ∧
      (F_DNS_RDATA_T = CType.ur_time_t ↔ t = UR_TYPE_TIME) ∧ (t = UR_TYPE_TIME → s = 8) ∧
      (F_DNS_RDATA_T = CType.uint32_t ↔ t = UR_TYPE_UINT32) ∧ (t = UR_TYPE_UINT32 → s = 4) ∧
      (F_DNS_RDATA_T = CType.uint16_t ↔ t = UR_TYPE_UINT16) ∧ (t = UR_TYPE_UINT16 → s = 2) ∧
      (F_DNS_RDATA_T = CType.uint8_t ↔ t = UR_TYPE_UINT8) ∧ (t = UR_TYPE_UINT8 → s = 1) ∧
      (F_DNS_RDATA_T = CType.char ↔ (t = UR_TYPE_STRING ∨ t = UR_TYPE_BYTES)) ∧
      (t = UR_TYPE_STRING ∨ t = UR_TYPE_BYTES → s = -1) :=
  ⟨by decide, value_type_agrees_with_tag ("DNS_RDATA", F_DNS_RDATA, F_DNS_RDATA_T) (by decide)⟩

/-- C10: the static table is ordered by storage size. For `i < j < 27`: if
both sizes are positive the earlier one is at least the later one, and if the
two sizes are equal the earlier name is strictly below the later one in
byte-wise lexicographic order; and every field of size -1 stands after every
field of positive size. -/
theorem static_table_ordered_by_size :
    (∀ i j, i < j → j < 27 → ∃ si sj ni nj,
      ur_field_sizes_static[i]? = some si ∧ ur_field_sizes_static[j]? = some sj ∧
      ur_field_names_static[i]? = some ni ∧ ur_field_names_static[j]? = some nj ∧
      (0 < si → 0 < sj → sj ≤ si) ∧
      (si = sj → nameLt ni nj = true)) ∧
    (∀ i j, i < 27 → j < 27 →
      ur_field_sizes_static[i]? = some (-1) →
      (∃ sj, ur_field_sizes_static[j]? = some sj ∧ 0 < sj) → j < i) := by
  constructor
  · intro i j hij hj
    have hdef : ∀ k : Nat, k < 27 →
        (ur_field_sizes_static[k]?).isSome ∧ (ur_field_names_static[k]?).isSome := by decide
    have key : ∀ j : Nat, j < 27 → ∀ i : Nat, i < j →
        ∀ si ∈ ur_field_sizes_static[i]?, ∀ sj ∈ ur_field_sizes_static[j]?,
        ∀ ni ∈ ur_field_names_static[i]?, ∀ nj ∈ ur_field_names_static[j]?,
          (0 < si → 0 < sj → sj ≤ si) ∧ (si = sj → nameLt ni nj = true) := by decide
    obtain ⟨hsi, hni⟩ := hdef i (hij.trans hj)
    obtain ⟨hsj, hnj⟩ := hdef j hj
    obtain ⟨si, hsi⟩ := Option.isSome_iff_exists.mp hsi
    obtain ⟨sj, hsj⟩ := Option.isSome_iff_exists.mp hsj
    obtain ⟨ni, hni⟩ := Option.isSome_iff_exists.mp hni
    obtain ⟨nj, hnj⟩ := Option.isSome_iff_exists.mp hnj
    exact ⟨si, sj, ni, nj, hsi, hsj, hni, hnj, key j hj i hij si hsi sj hsj ni hni nj hnj⟩
  · intro i j hi hj hsi hsj
    obtain ⟨sj, hsj, hpos⟩ := hsj
    have key : ∀ i : Nat, i < 27 → ∀ j : Nat, j < 27 →
        ur_field_sizes_static[i]? = some (-1) →
        ∀ s ∈ ur_field_sizes_static[j]?, 0 < s → j < i := by decide
    exact key i hi j hj hsi sj hsj hpos

/-- Witness of C10: `DNS_BLACKLIST` (index 16) and `DNS_DO` (index 17) have
the same size 1 and are in byte order; the variable-length `DNS_NAME` (index
22) stands after the fixed-size `TTL` (index 21). -/
theorem static_table_ordered_by_size_witness :
    (16 < 17 ∧ 17 < 27 ∧ ∃ si sj ni nj,
      ur_field_sizes_static[16]? = some si ∧ ur_field_sizes_static[17]? = some sj ∧
      ur_field_names_static[16]? = some ni ∧ ur_field_names_static[17]? = some nj ∧
      (0 < si → 0 < sj → sj ≤ si) ∧
      (si = sj → nameLt ni nj = true)) ∧
    (22 < 27 ∧ 21 < 27 ∧ ur_field_sizes_static[22]? = some (-1) ∧
      (∃ sj, ur_field_sizes_static[21]? = some sj ∧ 0 < sj) ∧ 21 < 22) :=
  ⟨⟨by decide, by decide, static_table_ordered_by_size.1 16 17 (by decide) (by decide)⟩,
   ⟨by decide, by decide, rfl, ⟨1, rfl, by decide⟩,
    static_table_ordered_by_size.2 22 21 (by decide) (by decide) rfl ⟨1, rfl, by decide⟩⟩⟩

/-! ## The registry operations -/

/-- Searching a list with two predicates that agree on its elements gives
the same result. -/
theorem find?_congr_on {α : Type} (p q : α → Bool) (l : List α)
    (h : ∀ x ∈ l, p x = q x) : l.find? p = l.find? q := by
  induction l with
  | nil => rfl
  | cons a l ih =>
    have ha : p a = q a := h a (List.mem_cons_self a l)
    have hl : l.find? p = l.find? q := ih (fun x hx => h x (List.mem_cons_of_mem a hx))
    simp only [List.find?_cons, ha, hl]

/-- A name that the search does not find is found at the new last index once
it has been appended. -/
theorem findIndexByName_append (r : ur_field_specs_t) (name : String)
    (hlen : r.names.length = r.validCount) (hnone : findIndexByName r name = none)
    (sizes : List Int) (types : List ur_field_type_t) (cap : Nat)
    (dyn : Option (List FieldEntry)) :
    findIndexByName
      { r with names := r.names ++ [name], sizes := sizes, types := types,
               validCount := r.validCount + 1, capacity := cap, dynamic := dyn } name
      = some r.validCount := by
  unfold findIndexByName at hnone ⊢
  simp only [List.range_succ, List.find?_append]
  have hsame : (List.range r.validCount).find?
        (fun i => (r.names ++ [name])[i]? == some name)
      = (List.range r.validCount).find? (fun i => r.names[i]? == some name) := by
    apply find?_congr_on
    intro i hi
    have hi2 : i < r.names.length := by rw [hlen]; exact List.mem_range.mp hi
    simp only [List.getElem?_append_left hi2]
  rw [hsame, hnone]
  have hlast : (r.names ++ [name])[r.validCount]? = some name := by
    rw [← hlen]; simp
  simp [hlast]

/-- Registration keeps a registry well-formed. -/
theorem registerField_wellFormed (grow : Nat → Nat) (r : ur_field_specs_t)
    (name : String) (size : Int) (type : ur_field_type_t) (hwf : WellFormed r) :
    WellFormed (registerField grow r name size type).2 := by
  unfold registerField
  split
  · split
    · split <;> exact hwf
    · split
      · obtain ⟨h1, h2, h3⟩ := hwf
        exact ⟨by simp [h1], by simp [h2], by simp [h3]⟩
      · exact hwf
  · exact hwf

/-- Initialization keeps a registry well-formed. -/
theorem initRegistry_wellFormed (r : ur_field_specs_t) (hwf : WellFormed r) :
    WellFormed (initRegistry r) := by
  unfold initRegistry
  cases h : r.state
  · exact ⟨rfl, rfl, rfl⟩
  · exact hwf
  · exact hwf

/-- Every reachable registry state is well-formed. -/
theorem reachable_wellFormed (grow : Nat → Nat) (r : ur_field_specs_t)
    (h : Reachable grow r) : WellFormed r := by
  induction h with
  | start => exact ⟨rfl, rfl, rfl⟩
  | init r _ ih => exact initRegistry_wellFormed r ih
  | register r name size type _ ih => exact registerField_wellFormed grow r name size type ih

/-- C6: `registerField` is idempotent per name. On every well-formed
registry, a second call with the same (name, size, type) has the same outcome
as the first (the same ID; when the first call fails, the same error) and
leaves the registry, and so `fieldCount()`, as the first call left it.
Every reachable state is well-formed (`reachable_wellFormed`). -/
theorem registerField_idempotent (grow : Nat → Nat) (r : ur_field_specs_t)
    (name : String) (size : Int) (type : ur_field_type_t) (hwf : WellFormed r) :
    (registerField grow (registerField grow r name size type).2 name size type).1
      = (registerField grow r name size type).1 ∧
    fieldCount (registerField grow (registerField grow r name size type).2 name size type).2
      = fieldCount (registerField grow r name size type).2 ∧
    (registerField grow (registerField grow r name size type).2 name size type).2
      = (registerField grow r name size type).2 := by
  have fixed : (registerField grow r name size type).2 = r →
      registerField grow (registerField grow r name size type).2 name size type
        = registerField grow r name size type := by
    intro h; rw [h]
  have main : registerField grow (registerField grow r name size type).2 name size type
      = ((registerField grow r name size type).1, (registerField grow r name size type).2) := by
    by_cases hv : sizeMatchesTag size type = true
    · cases hf : findIndexByName r name with
      | some id =>
        have h2 : (registerField grow r name size type).2 = r := by
          unfold registerField; simp only [hv, hf, if_true]; split <;> rfl
        rw [fixed h2]
      | none =>
        by_cases hc : r.validCount + 1 < ID_LIMIT
        · obtain ⟨h1, h2, h3⟩ := hwf
          have hfirst : registerField grow r name size type =
              (.ok r.validCount,
                { r with
                  names := r.names ++ [name]
                  sizes := r.sizes ++ [size]
                  types := r.types ++ [type]
                  validCount := r.validCount + 1
                  capacity := if r.validCount < r.capacity then r.capacity
                    else grow r.capacity
                  dynamic := some (r.dynamic.getD [] ++ [⟨r.validCount, name, size, type⟩]) }) := by
            unfold registerField; simp only [hv, hf, hc, if_true]
          rw [hfirst]
          have hfind := findIndexByName_append r name h1 hf (r.sizes ++ [size])
            (r.types ++ [type])
            (if r.validCount < r.capacity then r.capacity else grow r.capacity)
            (some (r.dynamic.getD [] ++ [⟨r.validCount, name, size, type⟩]))
          have hs : (r.sizes ++ [size])[r.validCount]? = some size := by
            rw [← h2]; simp
          have ht : (r.types ++ [type])[r.validCount]? = some type := by
            rw [← h3]; simp
          unfold registerField
          simp only [hv, hfind, if_true, hs, ht, and_self]
        · have h2 : (registerField grow r name size type).2 = r := by
            unfold registerField; simp only [hv, hf, hc, if_true, if_false]
          rw [fixed h2]
    · have h2 : (registerField grow r name size type).2 = r := by
        unfold registerField; simp [hv]
      rw [fixed h2]
  rw [main]
  exact ⟨rfl, rfl, rfl⟩

/-- Witness of C6: registering the new field `("X", 8, UR_TYPE_UINT64)` on
the initial registry returns ID 27 both times, and the count stays 28. -/
theorem registerField_idempotent_witness :
    WellFormed ur_field_specs ∧
    (registerField (fun c => 2 * c) ur_field_specs "X" 8 UR_TYPE_UINT64).1 = .ok 27 ∧
    fieldCount (registerField (fun c => 2 * c) ur_field_specs "X" 8 UR_TYPE_UINT64).2 = 28 ∧
    ((registerField (fun c => 2 * c)
        (registerField (fun c => 2 * c) ur_field_specs "X" 8 UR_TYPE_UINT64).2
        "X" 8 UR_TYPE_UINT64).1
      = (registerField (fun c => 2 * c) ur_field_specs "X" 8 UR_TYPE_UINT64).1 ∧
    fieldCount (registerField (fun c => 2 * c)
        (registerField (fun c => 2 * c) ur_field_specs "X" 8 UR_TYPE_UINT64).2
        "X" 8 UR_TYPE_UINT64).2
      = fieldCount (registerField (fun c => 2 * c) ur_field_specs "X" 8 UR_TYPE_UINT64).2 ∧
    (registerField (fun c => 2 * c)
        (registerField (fun c => 2 * c) ur_field_specs "X" 8 UR_TYPE_UINT64).2
        "X" 8 UR_TYPE_UINT64).2
      = (registerField (fun c => 2 * c) ur_field_specs "X" 8 UR_TYPE_UINT64).2) :=
  ⟨by decide, by decide, by decide,
    registerField_idempotent (fun c => 2 * c) ur_field_specs "X" 8 UR_TYPE_UINT64 (by decide)⟩

/-! ### Presence of a name and the name search -/

/-- What the name search finds is a valid index holding the name. -/
theorem findIndexByName_sound (r : ur_field_specs_t) (name : String) (id : Nat)
    (h : findIndexByName r name = some id) :
    id < r.validCount ∧ r.names[id]? = some name := by
  unfold findIndexByName at h
  have hp := List.find?_some h
  have hm := List.mem_of_find?_eq_some h
  exact ⟨List.mem_range.mp hm, by simpa using hp⟩

/-- Searching the indices below `n` finds `k` when `k` is the first index
that satisfies the predicate. -/
theorem find?_range_first (p : Nat → Bool) (n k : Nat) (hk : k < n)
    (hp : p k = true) (hfirst : ∀ j, j < k → p j = false) :
    (List.range n).find? p = some k := by
  induction n with
  | zero => exact absurd hk (Nat.not_lt_zero k)
  | succ n ih =>
    rw [List.range_succ, List.find?_append]
    rcases Nat.lt_or_ge k n with hlt | hge
    · rw [ih hlt]; rfl
    · have hkn : k = n := Nat.le_antisymm (Nat.lt_succ_iff.mp hk) hge
      subst hkn
      have hnone : (List.range k).find? p = none := by
        rw [List.find?_eq_none]
        intro x hx
        rw [hfirst x (List.mem_range.mp hx)]
        exact Bool.false_ne_true
      rw [hnone]
      simp [hp]

/-- Present implies found: when `k` is the first valid index whose name is
`name`, the name search returns `k`. -/
theorem findIndexByName_first (r : ur_field_specs_t) (name : String) (k : Nat)
    (hk : k < r.validCount) (hname : r.names[k]? = some name)
    (hfirst : ∀ j, j < k → r.names[j]? ≠ some name) :
    findIndexByName r name = some k := by
  unfold findIndexByName
  apply find?_range_first _ _ _ hk
  · simp [hname]
  · intro j hj
    simpa using hfirst j hj

/-- Present implies found, without knowing which occurrence is first: a name
held at a valid index is found, at a valid index that holds it. -/
theorem findIndexByName_complete (r : ur_field_specs_t) (name : String) (k : Nat)
    (hk : k < r.validCount) (hname : r.names[k]? = some name) :
    ∃ id, findIndexByName r name = some id ∧ id ≤ k ∧ r.names[id]? = some name := by
  induction k using Nat.strong_induction_on with
  | _ k ih =>
    by_cases hfirst : ∀ j, j < k → r.names[j]? ≠ some name
    · exact ⟨k, findIndexByName_first r name k hk hname hfirst, Nat.le_refl k, hname⟩
    · simp only [not_forall, not_not] at hfirst
      obtain ⟨j, hj, hjn⟩ := hfirst
      obtain ⟨id, hid, hle, hidn⟩ := ih j hj (hj.trans hk) hjn
      exact ⟨id, hid, hle.trans hj.le, hidn⟩

/-- A name the search does not find is not in the name table of a
well-formed registry. -/
theorem not_mem_names_of_not_found (r : ur_field_specs_t) (name : String)
    (hwf : WellFormed r) (hnone : findIndexByName r name = none) : name ∉ r.names := by
  intro hmem
  obtain ⟨k, hk⟩ := List.mem_iff_getElem?.mp hmem
  have hlt : k < r.validCount := by
    rw [← hwf.1]; exact (List.getElem?_eq_some_iff.mp hk).1
  obtain ⟨id, hid, _, _⟩ := findIndexByName_complete r name k hlt hk
  rw [hnone] at hid
  exact Option.noConfusion hid

/-- Registration keeps the names of a well-formed registry pairwise
distinct: a name is appended only when the search does not find it. -/
theorem registerField_names_nodup (grow : Nat → Nat) (r : ur_field_specs_t)
    (name : String) (size : Int) (type : ur_field_type_t) (hwf : WellFormed r)
    (hnd : r.names.Nodup) : (registerField grow r name size type).2.names.Nodup := by
  unfold registerField
  split
  · split
    · split <;> exact hnd
    · rename_i hnone
      split
      · have hnot := not_mem_names_of_not_found r name hwf hnone
        show (r.names ++ [name]).Nodup
        rw [List.nodup_append]
        refine ⟨hnd, List.nodup_singleton name, ?_⟩
        intro a ha hb
        rw [List.mem_singleton] at hb
        subst hb
        exact hnot ha
      · exact hnd
  · exact hnd

/-- In every reachable registry state the names are pairwise distinct (the
uniqueness invariant of section 3). -/
theorem reachable_names_nodup (grow : Nat → Nat) (r : ur_field_specs_t)
    (h : Reachable grow r) : r.names.Nodup := by
  induction h with
  | start => show ur_field_names_static.Nodup; decide
  | init r _ ih =>
    unfold initRegistry
    cases hs : r.state
    · show ur_field_names_static.Nodup; decide
    · exact ih
    · exact ih
  | register r name size type hr ih =>
    exact registerField_names_nodup grow r name size type
      (reachable_wellFormed grow r hr) ih

/-- Where the names are pairwise distinct, an index holding a name is the
first (and only) index holding it. -/
theorem first_of_names_nodup (r : ur_field_specs_t) (name : String) (k : Nat)
    (hnd : r.names.Nodup) (hname : r.names[k]? = some name) :
    ∀ j, j < k → r.names[j]? ≠ some name := by
  intro j hj hjn
  obtain ⟨hk1, hk2⟩ := List.getElem?_eq_some_iff.mp hname
  obtain ⟨hj1, hj2⟩ := List.getElem?_eq_some_iff.mp hjn
  have heq : j = k := (List.Nodup.getElem_inj_iff hnd).mp (hj2.trans hk2.symm)
  exact absurd heq (Nat.ne_of_lt hj)

/-- C7: `registerField` detects schema conflicts atomically. On every
registry state in which `name` is already present, that is, the name table
holds it at a valid index `k` and at no earlier index (in a reachable state
names are unique, so `k` is then the only index holding it), registering
`name` with a size or a type different from the one stored at `k` fails with
`SchemaConflict` and returns the registry unchanged, so `fieldCount()` is
unchanged. -/
theorem registerField_conflict (grow : Nat → Nat) (r : ur_field_specs_t)
    (name : String) (size : Int) (type : ur_field_type_t) (k : Nat)
    (hk : k < r.validCount) (hname : r.names[k]? = some name)
    (hfirst : ∀ j, j < k → r.names[j]? ≠ some name)
    (hdiff : r.sizes[k]? ≠ some size ∨ r.types[k]? ≠ some type) :
    (registerField grow r name size type).1 = .error SchemaConflict ∧
    (registerField grow r name size type).2 = r ∧
    fieldCount (registerField grow r name size type).2 = fieldCount r := by
  have hfound : findIndexByName r name = some k :=
    findIndexByName_first r name k hk hname hfirst
  have hnot : ¬ (r.sizes[k]? = some size ∧ r.types[k]? = some type) := by
    rintro ⟨h1, h2⟩
    rcases hdiff with h | h
    · exact h h1
    · exact h h2
  have main : registerField grow r name size type = (.error SchemaConflict, r) := by
    unfold registerField
    by_cases hv : sizeMatchesTag size type = true
    · simp only [hv, hfound, if_true, if_neg hnot]
    · simp [hv]
  rw [main]
  exact ⟨rfl, rfl, rfl⟩

/-- Witness of C7, the scenario of the claim: after
`registerField("X", 8, UINT64)` on the initial registry (which returns ID
27), the name table holds `"X"` at index 27 and nowhere before, and
`registerField("X", 4, UINT32)` fails with `SchemaConflict` while the count
stays 28. -/
theorem registerField_conflict_witness :
    (registerField (fun c => 2 * c) ur_field_specs "X" 8 UR_TYPE_UINT64).1 = .ok 27 ∧
    27 < (registerField (fun c => 2 * c) ur_field_specs "X" 8 UR_TYPE_UINT64).2.validCount ∧
    (registerField (fun c => 2 * c) ur_field_specs "X" 8 UR_TYPE_UINT64).2.names[27]?
      = some "X" ∧
    (∀ j, j < 27 →
      (registerField (fun c => 2 * c) ur_field_specs "X" 8 UR_TYPE_UINT64).2.names[j]?
        ≠ some "X") ∧
    ((registerField (fun c => 2 * c) ur_field_specs "X" 8 UR_TYPE_UINT64).2.sizes[27]? ≠ some 4 ∨
      (registerField (fun c => 2 * c) ur_field_specs "X" 8 UR_TYPE_UINT64).2.types[27]?
        ≠ some UR_TYPE_UINT32) ∧
    fieldCount (registerField (fun c => 2 * c) ur_field_specs "X" 8 UR_TYPE_UINT64).2 = 28 ∧
    ((registerField (fun c => 2 * c)
        (registerField (fun c => 2 * c) ur_field_specs "X" 8 UR_TYPE_UINT64).2
        "X" 4 UR_TYPE_UINT32).1 = .error SchemaConflict ∧
    (registerField (fun c => 2 * c)
        (registerField (fun c => 2 * c) ur_field_specs "X" 8 UR_TYPE_UINT64).2
        "X" 4 UR_TYPE_UINT32).2
      = (registerField (fun c => 2 * c) ur_field_specs "X" 8 UR_TYPE_UINT64).2 ∧
    fieldCount (registerField (fun c => 2 * c)
        (registerField (fun c => 2 * c) ur_field_specs "X" 8 UR_TYPE_UINT64).2
        "X" 4 UR_TYPE_UINT32).2
      = fieldCount (registerField (fun c => 2 * c) ur_field_specs "X" 8 UR_TYPE_UINT64).2) :=
  ⟨by decide, by decide, by decide, by decide, by decide, by decide,
    registerField_conflict (fun c => 2 * c)
      (registerField (fun c => 2 * c) ur_field_specs "X" 8 UR_TYPE_UINT64).2
      "X" 4 UR_TYPE_UINT32 27 (by decide) (by decide) (by decide) (by decide)⟩

/-- C8: the lifecycle state of `ur_field_specs` at program start is
`UR_UNINITIALIZED`, the last field of its initialiser, and neither
`UR_INITIALIZING` nor `UR_READY`; the registry is therefore not readable. -/
theorem registry_starts_uninitialized :
    ur_field_specs.state = UR_UNINITIALIZED ∧
    ur_field_specs.state ≠ UR_INITIALIZING ∧
    ur_field_specs.state ≠ UR_READY ∧
    isReadable ur_field_specs = false :=
  ⟨rfl, by decide, by decide, rfl⟩

/-! ## Supporting facts about the lifecycle and the lookups -/

/-- Before initialization both lookups fail with `NotInitialized`. -/
theorem lookups_fail_before_init (name : String) (id : Nat) :
    resolveByName ur_field_specs name = .error NotInitialized ∧
    resolveById ur_field_specs id = .error NotInitialized :=
  ⟨rfl, rfl⟩

/-- Initialization makes the registry readable and well-formed, and every
static name then resolves to the entry at its declared index. -/
theorem lookups_after_init :
    isReadable (initRegistry ur_field_specs) = true ∧
    WellFormed (initRegistry ur_field_specs) ∧
    fieldCount (initRegistry ur_field_specs) = 27 ∧
    (∀ i : Nat, i < 27 →
      ∀ n ∈ ur_field_names_static[i]?, ∀ s ∈ ur_field_sizes_static[i]?,
      ∀ t ∈ ur_field_types_static[i]?,
        resolveByName (initRegistry ur_field_specs) n = .ok ⟨i, n, s, t⟩ ∧
        resolveById (initRegistry ur_field_specs) i = .ok ⟨i, n, s, t⟩) := by
  refine ⟨by decide, by decide, by decide, ?_⟩
  decide

/-- Initialization is idempotent: on a `READY` registry it is a no-op. -/
theorem initRegistry_idempotent (r : ur_field_specs_t) :
    initRegistry (initRegistry r) = initRegistry r := by
  unfold initRegistry
  cases h : r.state <;> simp [h]

end Fields
